import Mathlib

/-!
Shallow embedding of `src/chart/helper/Line.ts` (the directed connector
rendering element) and proofs about its layout, diffing and label logic.

JS numbers are modelled as rationals (`ℚ`); angles computed through
`Math.atan2` live in `ℝ`.  `undefined`/`null` is modelled with `Option`.
-/

set_option linter.unusedVariables false

namespace EChartsLine

/-- A 2D point `(x, y)`. -/
abbrev Point := ℚ × ℚ

/-- The shape state of the connector path (`ECLinePath.shape`): endpoints
`(x1,y1)`, `(x2,y2)`, the optional quadratic control point `cp`
(the source marks an absent control point by writing `NaN` into
`cpx1`/`cpy1`; we model presence with `Option`), and the draw-progress
`percent`. -/
structure LineShape where
  x1 : ℚ
  y1 : ℚ
  x2 : ℚ
  y2 : ℚ
  cp : Option Point
  percent : ℚ
deriving DecidableEq

/-- Embedding of `setLinePoints(targetShape, points)` (Line.ts lines 85-106):
writes both endpoints, resets `percent` to 1, and stores the third point as
control point when present (`NaN`-marked absent otherwise).  Every field of
the target is overwritten, so the result does not depend on `targetShape`. -/
def setLinePoints (targetShape : LineShape) (points : List Point) : LineShape :=
  { x1 := (points[0]?.getD (0, 0)).1
    y1 := (points[0]?.getD (0, 0)).2
    x2 := (points[1]?.getD (0, 0)).1
    y2 := (points[1]?.getD (0, 0)).2
    percent := 1
    cp := points[2]? }

/-- The default shape a fresh `ECLinePath` starts from before
`setLinePoints` runs (all fields are overwritten by it). -/
def initialShape : LineShape :=
  { x1 := 0, y1 := 0, x2 := 0, y2 := 0, cp := none, percent := 1 }

/-- Embedding of `createLine(points)` followed by `line.shape.percent = 0`
(Line.ts lines 76-83 and 122-123): the shape right after construction,
before the reveal animation drives `percent` back to 1. -/
def createLineShape (points : List Point) : LineShape :=
  { setLinePoints initialShape points with percent := 0 }

/-- Modelled from the spec: `pointAt(t)` of the Curve Geometry collaborator
(`LinePath`, not part of this repository slice): straight case is linear
interpolation between the endpoints, curved case is standard quadratic
Bezier evaluation. -/
def pointAt (s : LineShape) (t : ℚ) : Point :=
  match s.cp with
  | none =>
      (s.x1 + (s.x2 - s.x1) * t, s.y1 + (s.y2 - s.y1) * t)
  | some c =>
      ((1 - t) ^ 2 * s.x1 + 2 * t * (1 - t) * c.1 + t ^ 2 * s.x2,
       (1 - t) ^ 2 * s.y1 + 2 * t * (1 - t) * c.2 + t ^ 2 * s.y2)

/-- Modelled from the spec: `tangentAt(t)` of the Curve Geometry
collaborator: straight case returns `p1 - p0`; curved case returns the
quadratic Bezier derivative direction. -/
def tangentAt (s : LineShape) (t : ℚ) : Point :=
  match s.cp with
  | none =>
      (s.x2 - s.x1, s.y2 - s.y1)
  | some c =>
      (2 * (1 - t) * (c.1 - s.x1) + 2 * t * (s.x2 - c.1),
       2 * (1 - t) * (c.2 - s.y1) + 2 * t * (s.y2 - c.2))

/-- Modelled from the spec: JavaScript `Math.atan2(y, x)`. -/
noncomputable def atan2 (y x : ℝ) : ℝ :=
  if 0 < x then Real.arctan (y / x)
  else if x < 0 then
    (if 0 ≤ y then Real.arctan (y / x) + Real.pi else Real.arctan (y / x) - Real.pi)
  else if 0 < y then Real.pi / 2
  else if y < 0 then -(Real.pi / 2)
  else 0

/-- Position written on the to-marker in `beforeUpdate` (Line.ts lines 352
and 366): `toPos = line.pointAt(percent)`. -/
def toSymbolPosition (s : LineShape) : Point :=
  pointAt s s.percent

/-- Rotation written on the to-marker in `beforeUpdate` (Line.ts lines
367-370): `-π/2 - atan2` of `line.tangentAt(1)`. -/
noncomputable def toSymbolRotation (s : LineShape) : ℝ :=
  -(Real.pi / 2) - atan2 ((tangentAt s 1).2 : ℝ) ((tangentAt s 1).1 : ℝ)

/-- The to-marker rotation as the spec sentence words it: `-π/2 - atan2`
of the tangent sampled at parameter `percent` (for comparison with
`toSymbolRotation`, which the source computes from the tangent at 1). -/
noncomputable def toSymbolRotationSpec (s : LineShape) : ℝ :=
  -(Real.pi / 2) - atan2 ((tangentAt s s.percent).2 : ℝ) ((tangentAt s s.percent).1 : ℝ)

/-- Position written on the from-marker in `beforeUpdate` (Line.ts lines
351 and 358): `fromPos = line.pointAt(0)`. -/
def fromSymbolPosition (s : LineShape) : Point :=
  pointAt s 0

/-- Rotation written on the from-marker in `beforeUpdate` (Line.ts lines
359-362): `π/2 - atan2` of `line.tangentAt(0)`. -/
noncomputable def fromSymbolRotation (s : LineShape) : ℝ :=
  Real.pi / 2 - atan2 ((tangentAt s 0).2 : ℝ) ((tangentAt s 0).1 : ℝ)

/-- Embedding of the ancestor walk of `beforeUpdate` (Line.ts lines
334-341): each ancestor (from the element's parent upward) contributes
`invScale /= ancestor.scale[0]` when it carries a scale; `none` models an
ancestor without a scale. -/
def computeInvScale (ancestors : List (Option ℚ)) : ℚ :=
  ancestors.foldl
    (fun inv sc =>
      match sc with
      | some v => inv / v
      | none => inv)
    1

/-- The scale attribute written on either endpoint marker in
`beforeUpdate` (Line.ts lines 363 and 371):
`[invScale * percent, invScale * percent]`. -/
def symbolScale (invScale percent : ℚ) : ℚ × ℚ :=
  (invScale * percent, invScale * percent)

/-- The three horizontal text alignments used by the label layout. -/
inductive TextAlign
  | left
  | right
  | center
deriving DecidableEq

/-- The three vertical text alignments used by the label layout. -/
inductive TextVerticalAlign
  | top
  | bottom
  | middle
deriving DecidableEq

/-- Result of the `dy` / vertical-alignment switch: the vertical offset and
the vertical alignment it selects. -/
structure DyVA where
  dy : ℚ
  va : TextVerticalAlign
deriving DecidableEq

/-- Embedding of the first `switch (label.__position)` of `beforeUpdate`
(Line.ts lines 403-423): the `insideStartTop` / `insideMiddleTop` /
`insideEndTop` / `middle` cases select `dy = -distanceY` and vertical
alignment `bottom`; the three `...Bottom` cases select `dy = distanceY`
and `top`; everything else falls to the default `dy = 0`, `middle`. -/
def labelDyVAlign (labelPos : String) (distanceY : ℚ) : DyVA :=
  if labelPos = "insideStartTop" ∨ labelPos = "insideMiddleTop" ∨
     labelPos = "insideEndTop" ∨ labelPos = "middle" then
    ⟨-distanceY, TextVerticalAlign.bottom⟩
  else if labelPos = "insideStartBottom" ∨ labelPos = "insideMiddleBottom" ∨
     labelPos = "insideEndBottom" then
    ⟨distanceY, TextVerticalAlign.top⟩
  else
    ⟨0, TextVerticalAlign.middle⟩

/-- The label anchor policies named in the two `switch` statements of
`beforeUpdate` (`label.__position` defaults to `"middle"`, Line.ts line 273). -/
def validPositions : List String :=
  ["start", "end", "middle",
   "insideStartTop", "insideStart", "insideStartBottom",
   "insideMiddleTop", "insideMiddle", "insideMiddleBottom",
   "insideEndTop", "insideEnd", "insideEndBottom"]

/-- `hasSubstr s pat`: `pat` occurs as a contiguous substring of `s`. -/
def hasSubstr (s pat : String) : Prop :=
  pat.toList <:+: s.toList

instance (s pat : String) : Decidable (hasSubstr s pat) :=
  List.decidableInfix pat.toList s.toList

/-- Embedding of the `case 'end'` horizontal-alignment ternary of
`beforeUpdate` (Line.ts line 428), applied to the normalized chord
direction `d`. -/
def endTextAlign (d : Point) : TextAlign :=
  if d.1 > 8 / 10 then TextAlign.left
  else if d.1 < -(8 / 10) then TextAlign.right
  else TextAlign.center

/-- Embedding of the `case 'end'` vertical-alignment ternary of
`beforeUpdate` (Line.ts line 429), applied to the normalized chord
direction `d`. -/
def endTextVerticalAlign (d : Point) : TextVerticalAlign :=
  if d.2 > 8 / 10 then TextVerticalAlign.top
  else if d.2 < -(8 / 10) then TextVerticalAlign.bottom
  else TextVerticalAlign.middle

/-- The two endpoint-marker categories (`SYMBOL_CATEGORIES`, Line.ts
line 32). -/
inductive SymbolCategory
  | fromSymbol
  | toSymbol
deriving DecidableEq

/-- A marker size as stored on the data record: a scalar (broadcast to both
axes by `createSymbol`) or an explicit pair. -/
inductive SymbolSize
  | scalar (s : ℚ)
  | pair (w h : ℚ)
deriving DecidableEq

/-- The per-item visual attributes `createSymbol` reads through
`lineData.getItemVisual` (color, per-category shape kind and size).
`none` models an absent (`undefined`) shape kind; JavaScript string
falsiness makes the empty string behave like an absent one. -/
structure ItemVisual where
  color : String
  fromSymbolKind : Option String
  toSymbolKind : Option String
  fromSymbolSize : SymbolSize
  toSymbolSize : SymbolSize
deriving DecidableEq

/-- `getItemVisual(idx, symbolCategory)`: the shape kind recorded for a
category. -/
def ItemVisual.symbolKind (item : ItemVisual) : SymbolCategory → Option String
  | SymbolCategory.fromSymbol => item.fromSymbolKind
  | SymbolCategory.toSymbol => item.toSymbolKind

/-- `getItemVisual(idx, symbolCategory + 'Size')`: the size recorded for a
category. -/
def ItemVisual.sizeOf (item : ItemVisual) : SymbolCategory → SymbolSize
  | SymbolCategory.fromSymbol => item.fromSymbolSize
  | SymbolCategory.toSymbol => item.toSymbolSize

/-- The `if (!zrUtil.isArray(symbolSize)) symbolSize = [symbolSize,
symbolSize]` broadcast of `createSymbol` (Line.ts lines 63-65). -/
def broadcastSize : SymbolSize → ℚ × ℚ
  | SymbolSize.scalar s => (s, s)
  | SymbolSize.pair w h => (w, h)

/-- A constructed marker shape: the arguments the module-level
`createSymbol` passes to the shape constructor (shape kind, top-left
corner `(-w/2, -h/2)`, size, color) plus the category tag written into
`symbolPath.name`. -/
structure SymbolPath where
  shapeKind : String
  x : ℚ
  y : ℚ
  w : ℚ
  h : ℚ
  color : String
  name : SymbolCategory
deriving DecidableEq

/-- Embedding of the module-level `createSymbol(name, lineData, idx)`
(Line.ts lines 54-74): returns no marker when the recorded shape kind is
falsy (`undefined` or the empty string) or equals `'none'`; otherwise
builds the shape centered at the origin with the broadcast size and tags
it with the category name. -/
def createSymbol (name : SymbolCategory) (item : ItemVisual) : Option SymbolPath :=
  match item.symbolKind name with
  | none => none
  | some t =>
      if t = "" ∨ t = "none" then none
      else
        let sz := broadcastSize (item.sizeOf name)
        some
          { shapeKind := t
            x := -sz.1 / 2
            y := -sz.2 / 2
            w := sz.1
            h := sz.2
            color := item.color
            name := name }

/-- The per-category state a `Line` keeps for one marker: the cached shape
kind (`_fromSymbolType` / `_toSymbolType`) and the current marker child (if
any), tagged with a creation identity so that "same instance" is
expressible. -/
structure MarkerSlot where
  cachedKind : Option String
  child : Option (ℕ × SymbolPath)
deriving DecidableEq

/-- Embedding of the per-category body of `_createLine` (Line.ts lines
141-148): build the marker from the record and cache the record's shape
kind.  `freshId` is the creation identity of the new child. -/
def createMarkerSlot (item : ItemVisual) (cat : SymbolCategory) (freshId : ℕ) : MarkerSlot :=
  { cachedKind := item.symbolKind cat
    child := (createSymbol cat item).map (fun sp => (freshId, sp)) }

/-- Embedding of the per-category body of `updateData` (Line.ts lines
165-175): when the cached shape kind differs from the record's, remove the
old child and build a replacement from the factory (`freshId` is the new
child's creation identity); otherwise keep the child; in both cases the
cache is overwritten with the record's shape kind. -/
def updateMarkerSlot (st : MarkerSlot) (item : ItemVisual) (cat : SymbolCategory)
    (freshId : ℕ) : MarkerSlot :=
  let symbolKind := item.symbolKind cat
  if st.cachedKind ≠ symbolKind then
    { cachedKind := symbolKind
      child := (createSymbol cat item).map (fun sp => (freshId, sp)) }
  else
    { st with cachedKind := symbolKind }

/-- A JavaScript number as `getRawValue` can return it: a finite value, an
infinity, or `NaN`. -/
inductive JSNum
  | fin (q : ℚ)
  | posInf
  | negInf
  | nan
deriving DecidableEq

/-- JavaScript `isFinite` on a number. -/
def JSNum.isFinite : JSNum → Bool
  | JSNum.fin _ => true
  | _ => false

/-- A resolved label text: a string (formatted label or item name), a
rounded number, or a non-finite raw value passed through verbatim. -/
inductive TextVal
  | str (s : String)
  | num (q : ℚ)
  | raw (v : JSNum)
deriving DecidableEq

/-- Modelled from the spec: the number-formatting `round` utility
(`util/number`, not part of this repository slice), rounding the raw value
to a display precision of 10 decimal places. -/
def roundDisp (x : ℚ) : ℚ :=
  (round (x * 10 ^ 10) : ℤ) / 10 ^ 10

/-- The per-item label inputs `_updateCommonStl` reads (Line.ts lines
230-257): the two `show` flags, the formatted labels for the normal and
emphasis states (`null` when the formatter yields none), the raw value and
the item name. -/
structure LabelScope where
  showLabel : Bool
  hoverShowLabel : Bool
  formattedNormal : Option String
  formattedEmphasis : Option String
  rawValue : Option JSNum
  itemName : String
deriving DecidableEq

/-- Embedding of the `baseText` resolution of `_updateCommonStl` (Line.ts
lines 238-250): computed only when either `show` flag is set; prefers the
formatted normal-state label, else falls back on the raw value (rounded
when finite, verbatim otherwise) or the item name when no raw value
exists. -/
def resolveBaseText (sc : LabelScope) : Option TextVal :=
  if sc.showLabel || sc.hoverShowLabel then
    some
      (match sc.formattedNormal with
       | some s => TextVal.str s
       | none =>
          match sc.rawValue with
          | none => TextVal.str sc.itemName
          | some v =>
              match v with
              | JSNum.fin q => TextVal.num (roundDisp q)
              | _ => TextVal.raw v)
  else
    none

/-- `normalText` of `_updateCommonStl` (Line.ts line 251):
`showLabel ? baseText : null`. -/
def normalText (sc : LabelScope) : Option TextVal :=
  if sc.showLabel then resolveBaseText sc else none

/-- `emphasisText` of `_updateCommonStl` (Line.ts lines 252-257):
`hoverShowLabel ? retrieve2(formatted emphasis label, baseText) : null`. -/
def emphasisText (sc : LabelScope) : Option TextVal :=
  if sc.hoverShowLabel then
    match sc.formattedEmphasis with
    | some s => some (TextVal.str s)
    | none => resolveBaseText sc
  else
    none

/-- `label.ignore = !showLabel && !hoverShowLabel` (Line.ts line 301). -/
def labelIgnore (sc : LabelScope) : Bool :=
  !sc.showLabel && !sc.hoverShowLabel

/-- A curved connector caught mid-reveal (`percent = 1/2`): used to
separate the tangent sampled at 1 from the tangent sampled at `percent`. -/
def lineCurveEx : LineShape :=
  { x1 := 0, y1 := 0, x2 := 2, y2 := 2, cp := some (1, 0), percent := 1 / 2 }

/-- A settled straight connector (`percent = 1`). -/
def lineSettledEx : LineShape :=
  { x1 := 0, y1 := 0, x2 := 10, y2 := 0, cp := none, percent := 1 }

/-- A record whose from-marker shape kind is the empty string (present,
distinct from `'none'`, yet falsy in JavaScript). -/
def itemEmptyKindEx : ItemVisual :=
  { color := "#abc"
    fromSymbolKind := some ""
    toSymbolKind := some "none"
    fromSymbolSize := SymbolSize.scalar 10
    toSymbolSize := SymbolSize.scalar 10 }

/-- A record with a circle from-marker and an arrow to-marker. -/
def itemCircleEx : ItemVisual :=
  { color := "#f00"
    fromSymbolKind := some "circle"
    toSymbolKind := some "arrow"
    fromSymbolSize := SymbolSize.scalar 10
    toSymbolSize := SymbolSize.pair 6 8 }

/-- The marker `createSymbol` builds for the from-category of
`itemCircleEx`: a circle of broadcast size `(10, 10)` centered at the
origin. -/
def spCircleEx : SymbolPath :=
  { shapeKind := "circle"
    x := -5
    y := -5
    w := 10
    h := 10
    color := "#f00"
    name := SymbolCategory.fromSymbol }

/-- The same record with the from-marker shape kind changed to a rect. -/
def itemRectEx : ItemVisual :=
  { color := "#f00"
    fromSymbolKind := some "rect"
    toSymbolKind := some "arrow"
    fromSymbolSize := SymbolSize.scalar 10
    toSymbolSize := SymbolSize.pair 6 8 }

/-- A label scope with the base state visible and only a finite raw value
to fall back on. -/
def labelScopeEx : LabelScope :=
  { showLabel := true
    hoverShowLabel := false
    formattedNormal := none
    formattedEmphasis := none
    rawValue := some (JSNum.fin (3 / 2))
    itemName := "edge-0" }

/-! ## Helper lemmas -/

theorem computeInvScale_foldl (a : ℚ) (l : List (Option ℚ)) :
    l.foldl
        (fun inv sc =>
          match sc with
          | some v => inv / v
          | none => inv)
        a
      = a * ((l.filterMap id).map (fun v => 1 / v)).prod := by
  induction l generalizing a with
  | nil => simp
  | cons hd tl ih =>
      cases hd with
      | none => simpa using ih a
      | some v =>
          rw [List.foldl_cons, ih]
          simp only [List.filterMap_cons, id, List.map_cons, List.prod_cons]
          ring

/-! ## Claim theorems -/

/-- C3: in the per-frame layout pass the marker scale written on both axes
is `(invScale * percent, invScale * percent)`, where `invScale` is the
product of the reciprocals of the x-scales of the scale-bearing ancestors;
it is `(0, 0)` when `percent = 0` and `(invScale, invScale)` when
`percent = 1`, for any ancestor chain. -/
theorem c3_symbol_scale (ancestors : List (Option ℚ)) (percent : ℚ) :
    symbolScale (computeInvScale ancestors) percent
        = (computeInvScale ancestors * percent, computeInvScale ancestors * percent) ∧
    computeInvScale ancestors
        = ((ancestors.filterMap id).map (fun v => 1 / v)).prod ∧
    (percent = 0 → symbolScale (computeInvScale ancestors) percent = (0, 0)) ∧
    (percent = 1 →
      symbolScale (computeInvScale ancestors) percent
        = (computeInvScale ancestors, computeInvScale ancestors)) := by
  refine ⟨rfl, ?_, fun h => ?_, fun h => ?_⟩
  · simpa using computeInvScale_foldl 1 ancestors
  · simp [symbolScale, h]
  · simp [symbolScale, h]

/-- Witness for C3 at the ancestor chain `[2, (no scale), 4]` and
`percent = 1`. -/
theorem c3_symbol_scale_witness :
    symbolScale (computeInvScale [some 2, none, some 4]) 1
      = (computeInvScale [some 2, none, some 4], computeInvScale [some 2, none, some 4]) :=
  (c3_symbol_scale [some 2, none, some 4] 1).2.2.2 rfl

/-- C4: for the anchor policy `end` the horizontal alignment computed from
the normalized chord direction `d` is `left` above `0.8`, `right` below
`-0.8` and `center` in between; symmetrically the vertical alignment on
the y-component is `top` / `bottom` / `middle`. -/
theorem c4_end_alignment (d : Point) :
    (d.1 > 8 / 10 → endTextAlign d = TextAlign.left) ∧
    (d.1 < -(8 / 10) → endTextAlign d = TextAlign.right) ∧
    (-(8 / 10) ≤ d.1 → d.1 ≤ 8 / 10 → endTextAlign d = TextAlign.center) ∧
    (d.2 > 8 / 10 → endTextVerticalAlign d = TextVerticalAlign.top) ∧
    (d.2 < -(8 / 10) → endTextVerticalAlign d = TextVerticalAlign.bottom) ∧
    (-(8 / 10) ≤ d.2 → d.2 ≤ 8 / 10 → endTextVerticalAlign d = TextVerticalAlign.middle) := by
  unfold endTextAlign endTextVerticalAlign
  refine ⟨fun h => ?_, fun h => ?_, fun h h2 => ?_, fun h => ?_, fun h => ?_, fun h h2 => ?_⟩ <;>
    split_ifs with h3 h4 <;> first | rfl | linarith

/-- Witness for C4 at the direction components `0.9`, `-0.9` and `0`. -/
theorem c4_end_alignment_witness :
    endTextAlign (9 / 10, -(9 / 10)) = TextAlign.left ∧
    endTextVerticalAlign (9 / 10, -(9 / 10)) = TextVerticalAlign.bottom ∧
    endTextAlign (0, 0) = TextAlign.center ∧
    endTextAlign (-(9 / 10), 9 / 10) = TextAlign.right ∧
    endTextVerticalAlign (-(9 / 10), 9 / 10) = TextVerticalAlign.top ∧
    endTextVerticalAlign (0, 0) = TextVerticalAlign.middle :=
  ⟨(c4_end_alignment (9 / 10, -(9 / 10))).1 (by norm_num),
   (c4_end_alignment (9 / 10, -(9 / 10))).2.2.2.2.1 (by norm_num),
   (c4_end_alignment (0, 0)).2.2.1 (by norm_num) (by norm_num),
   (c4_end_alignment (-(9 / 10), 9 / 10)).2.1 (by norm_num),
   (c4_end_alignment (-(9 / 10), 9 / 10)).2.2.2.1 (by norm_num),
   (c4_end_alignment (0, 0)).2.2.2.2.2 (by norm_num) (by norm_num)⟩

/-- C5: on a data update, for each marker category, a changed shape kind
removes the old marker child (the result no longer holds the old instance)
and installs whatever the factory builds from the new record, while an
unchanged shape kind keeps the existing marker instance untouched. -/
theorem c5_marker_diff (st : MarkerSlot) (item : ItemVisual) (cat : SymbolCategory)
    (freshId : ℕ) :
    (st.cachedKind ≠ item.symbolKind cat →
      (updateMarkerSlot st item cat freshId).child
        = (createSymbol cat item).map (fun sp => (freshId, sp))) ∧
    (st.cachedKind ≠ item.symbolKind cat → ∀ oldId sp, st.child = some (oldId, sp) →
      oldId ≠ freshId → (updateMarkerSlot st item cat freshId).child ≠ some (oldId, sp)) ∧
    (st.cachedKind = item.symbolKind cat →
      (updateMarkerSlot st item cat freshId).child = st.child) := by
  refine ⟨fun h => ?_, fun h oldId sp hold hne => ?_, fun h => ?_⟩
  · simp only [updateMarkerSlot]
    rw [if_pos h]
  · simp only [updateMarkerSlot]
    rw [if_pos h]
    cases hcs : createSymbol cat item with
    | none => simp
    | some sp2 =>
        simp only [Option.map_some']
        intro heq
        have h1 : freshId = oldId := (Prod.mk.injEq _ _ _ _ ▸ Option.some.injEq _ _ ▸ heq : _) |>.1
        exact hne h1.symm
  · simp only [updateMarkerSlot]
    rw [if_neg (not_not_intro h)]

/-- Witness for C5: changing the from-marker kind from `"circle"` to
`"rect"` rebuilds the child; an unchanged kind keeps it. -/
theorem c5_marker_diff_witness :
    (updateMarkerSlot (createMarkerSlot itemCircleEx SymbolCategory.fromSymbol 0)
        itemRectEx SymbolCategory.fromSymbol 1).child
      = (createSymbol SymbolCategory.fromSymbol itemRectEx).map (fun sp => (1, sp)) :=
  (c5_marker_diff (createMarkerSlot itemCircleEx SymbolCategory.fromSymbol 0)
      itemRectEx SymbolCategory.fromSymbol 1).1 (by decide)

/-- C6: after a style update the label's ignore flag is set iff both the
base and the hover `show` flags are false. -/
theorem c6_label_ignore (sc : LabelScope) :
    labelIgnore sc = true ↔ sc.showLabel = false ∧ sc.hoverShowLabel = false := by
  unfold labelIgnore
  cases h1 : sc.showLabel <;> cases h2 : sc.hoverShowLabel <;> simp

/-- Witness for C6 at a scope with both `show` flags off. -/
theorem c6_label_ignore_witness :
    labelIgnore { labelScopeEx with showLabel := false } = true :=
  (c6_label_ignore { labelScopeEx with showLabel := false }).mpr ⟨rfl, rfl⟩

/-- C10: after construction and after every update the cached per-category
shape kind equals the shape kind on the record just applied, so a second
update's rebuild decision compares the new record against exactly the
immediately preceding record's shape kind. -/
theorem c10_cached_kind (st : MarkerSlot) (item item2 : ItemVisual) (cat : SymbolCategory)
    (fid fid2 : ℕ) :
    (createMarkerSlot item cat fid).cachedKind = item.symbolKind cat ∧
    (updateMarkerSlot st item cat fid).cachedKind = item.symbolKind cat ∧
    updateMarkerSlot (updateMarkerSlot st item cat fid) item2 cat fid2
      = if item.symbolKind cat ≠ item2.symbolKind cat then
          { cachedKind := item2.symbolKind cat
            child := (createSymbol cat item2).map (fun sp => (fid2, sp)) }
        else
          { cachedKind := item2.symbolKind cat
            child := (updateMarkerSlot st item cat fid).child } := by
  have hcache : ∀ s : MarkerSlot, (updateMarkerSlot s item cat fid).cachedKind
      = item.symbolKind cat := by
    intro s
    simp only [updateMarkerSlot]
    split <;> rfl
  refine ⟨rfl, hcache st, ?_⟩
  by_cases h : item.symbolKind cat = item2.symbolKind cat
  · rw [if_neg (not_not_intro h)]
    conv_lhs => rw [updateMarkerSlot]
    rw [if_neg (not_not_intro ((hcache st).trans h))]
  · rw [if_pos h]
    conv_lhs => rw [updateMarkerSlot]
    rw [if_pos (fun heq => h ((hcache st).symm.trans heq))]

/-- C1 counterexample: on a curved connector caught mid-reveal
(`percent = 1/2`) the rotation the layout writes on the to-marker —
computed from the tangent at parameter 1 — differs from the claimed
`-π/2 - atan2` of the tangent at parameter `percent`. -/
theorem c1_to_rotation_counterexample :
    toSymbolRotation lineCurveEx ≠ toSymbolRotationSpec lineCurveEx := by
  have ht1 : tangentAt lineCurveEx 1 = (2, 4) := by
    norm_num [tangentAt, lineCurveEx]
  have ht2 : tangentAt lineCurveEx lineCurveEx.percent = (2, 2) := by
    norm_num [tangentAt, lineCurveEx]
  have h42 : atan2 (((4 : ℚ) : ℝ)) (((2 : ℚ) : ℝ)) = Real.arctan 2 := by
    rw [atan2, if_pos (by norm_num : (0 : ℝ) < ((2 : ℚ) : ℝ))]
    norm_num
  have h22 : atan2 (((2 : ℚ) : ℝ)) (((2 : ℚ) : ℝ)) = Real.arctan 1 := by
    rw [atan2, if_pos (by norm_num : (0 : ℝ) < ((2 : ℚ) : ℝ))]
    norm_num
  unfold toSymbolRotation toSymbolRotationSpec
  rw [ht1, ht2]
  show -(Real.pi / 2) - atan2 (((4 : ℚ) : ℝ)) (((2 : ℚ) : ℝ))
      ≠ -(Real.pi / 2) - atan2 (((2 : ℚ) : ℝ)) (((2 : ℚ) : ℝ))
  rw [h42, h22]
  intro heq
  have harc : Real.arctan 2 = Real.arctan 1 := by linarith
  have h21 := Real.arctan_injective harc
  norm_num at h21

/-- C1 (amended): the layout writes the to-marker position at the curve
point at parameter `percent`, and its rotation as `-π/2 - atan2` of the
tangent sampled at parameter 1 (not `percent`); the two rotation formulas
coincide whenever `percent = 1`, i.e. outside the reveal animation. -/
theorem c1_to_marker_pose (s : LineShape) :
    toSymbolPosition s = pointAt s s.percent ∧
    toSymbolRotation s
      = -(Real.pi / 2) - atan2 ((tangentAt s 1).2 : ℝ) ((tangentAt s 1).1 : ℝ) ∧
    (s.percent = 1 → toSymbolRotation s = toSymbolRotationSpec s) := by
  refine ⟨rfl, rfl, fun h => ?_⟩
  unfold toSymbolRotation toSymbolRotationSpec
  rw [h]

/-- Witness for C1 on a settled connector (`percent = 1`). -/
theorem c1_to_marker_pose_witness :
    toSymbolRotation lineSettledEx = toSymbolRotationSpec lineSettledEx :=
  (c1_to_marker_pose lineSettledEx).2.2 rfl

/-- C2 counterexample: the policy `"middle"` contains neither `"Top"` nor
`"Bottom"`, yet the switch gives it `dy = -distanceY` and vertical
alignment `bottom` (at `distanceY = 5`), not `dy = 0` / `middle` as the
claim states. -/
theorem c2_middle_counterexample :
    ¬ hasSubstr "middle" "Top" ∧ ¬ hasSubstr "middle" "Bottom" ∧
    labelDyVAlign "middle" 5 ≠ ⟨0, TextVerticalAlign.middle⟩ ∧
    labelDyVAlign "middle" 5 = ⟨-5, TextVerticalAlign.bottom⟩ := by
  refine ⟨by decide, by decide, ?_, ?_⟩ <;> decide

/-- C2 (amended): over the enumerated anchor policies, a name containing
`"Top"` gets `dy = -distanceY` with vertical alignment `bottom`; a name
containing `"Bottom"` gets `dy = distanceY` with `top`; the policy
`"middle"` also gets `dy = -distanceY` with `bottom`; every other policy
containing neither gets `dy = 0` with `middle`. -/
theorem c2_label_dy_valign (labelPos : String) (hpos : labelPos ∈ validPositions) (dY : ℚ) :
    (hasSubstr labelPos "Top" → labelDyVAlign labelPos dY = ⟨-dY, TextVerticalAlign.bottom⟩) ∧
    (hasSubstr labelPos "Bottom" → labelDyVAlign labelPos dY = ⟨dY, TextVerticalAlign.top⟩) ∧
    (labelPos = "middle" → labelDyVAlign labelPos dY = ⟨-dY, TextVerticalAlign.bottom⟩) ∧
    (¬ hasSubstr labelPos "Top" → ¬ hasSubstr labelPos "Bottom" → labelPos ≠ "middle" →
      labelDyVAlign labelPos dY = ⟨0, TextVerticalAlign.middle⟩) := by
  fin_cases hpos <;>
    refine ⟨fun h => ?_, fun h => ?_, fun h => ?_, fun h1 h2 h3 => ?_⟩ <;>
    first
      | rfl
      | exact absurd h (by decide)
      | exact absurd (by decide) h1
      | exact absurd (by decide) h2
      | exact absurd rfl h3

/-- Witness for C2 at the policies `"insideEndTop"` and `"insideStart"`
with `distanceY = 7`. -/
theorem c2_label_dy_valign_witness :
    labelDyVAlign "insideEndTop" 7 = ⟨-7, TextVerticalAlign.bottom⟩ ∧
    labelDyVAlign "insideStart" 7 = ⟨0, TextVerticalAlign.middle⟩ :=
  ⟨(c2_label_dy_valign "insideEndTop" (by decide) 7).1 (by decide),
   (c2_label_dy_valign "insideStart" (by decide) 7).2.2.2 (by decide) (by decide) (by decide)⟩

/-- C9: setting geometry from a point list writes both endpoints, stores a
control point exactly when a third point is supplied, and resets the draw
progress to 1; re-applying `setLinePoints` with the same point list after
construction leaves every sampled point and tangent of the construction
unchanged. -/
theorem c9_set_line_points (s : LineShape) (points : List Point) (p0 p1 : Point)
    (h0 : points[0]? = some p0) (h1 : points[1]? = some p1) :
    (setLinePoints s points).x1 = p0.1 ∧
    (setLinePoints s points).y1 = p0.2 ∧
    (setLinePoints s points).x2 = p1.1 ∧
    (setLinePoints s points).y2 = p1.2 ∧
    (setLinePoints s points).cp = points[2]? ∧
    ((setLinePoints s points).cp.isSome = true ↔ 2 < points.length) ∧
    (setLinePoints s points).percent = 1 ∧
    (∀ t, pointAt (setLinePoints (createLineShape points) points) t
        = pointAt (createLineShape points) t) ∧
    (∀ t, tangentAt (setLinePoints (createLineShape points) points) t
        = tangentAt (createLineShape points) t) := by
  refine ⟨?_, ?_, ?_, ?_, rfl, ?_, rfl, fun t => rfl, fun t => rfl⟩
  · simp [setLinePoints, h0]
  · simp [setLinePoints, h0]
  · simp [setLinePoints, h1]
  · simp [setLinePoints, h1]
  · cases h2 : points[2]? with
    | none =>
        have hlen := List.getElem?_eq_none_iff.mp h2
        have hnlt : ¬ 2 < points.length := by omega
        simp [setLinePoints, h2, hnlt]
    | some c =>
        obtain ⟨hlt, -⟩ := List.getElem?_eq_some_iff.mp h2
        simp [setLinePoints, h2, hlt]

/-- C7: when either visibility state is on, the base label text prefers
the formatted base label, else the rounded finite raw value, else the item
name when no raw value exists, else the non-finite raw value verbatim; for
the hover-visible state, the hover text prefers the formatted hover label
and otherwise falls back on the resolved base text. -/
theorem c7_label_text (sc : LabelScope)
    (hshow : sc.showLabel = true ∨ sc.hoverShowLabel = true) :
    (∀ s, sc.formattedNormal = some s → resolveBaseText sc = some (TextVal.str s)) ∧
    (sc.formattedNormal = none → ∀ q, sc.rawValue = some (JSNum.fin q) →
      resolveBaseText sc = some (TextVal.num (roundDisp q))) ∧
    (sc.formattedNormal = none → sc.rawValue = none →
      resolveBaseText sc = some (TextVal.str sc.itemName)) ∧
    (sc.formattedNormal = none → ∀ v, sc.rawValue = some v → v.isFinite = false →
      resolveBaseText sc = some (TextVal.raw v)) ∧
    (sc.hoverShowLabel = true → ∀ s, sc.formattedEmphasis = some s →
      emphasisText sc = some (TextVal.str s)) ∧
    (sc.hoverShowLabel = true → sc.formattedEmphasis = none →
      emphasisText sc = resolveBaseText sc) := by
  have hcond : (sc.showLabel || sc.hoverShowLabel) = true := by
    rcases hshow with h | h <;> simp [h]
  refine ⟨fun s hs => ?_, fun hn q hq => ?_, fun hn hr => ?_, fun hn v hv hf => ?_,
    fun hh s hs => ?_, fun hh hn => ?_⟩
  · simp [resolveBaseText, hcond, hs]
  · simp [resolveBaseText, hcond, hn, hq]
  · simp [resolveBaseText, hcond, hn, hr]
  · cases v with
    | fin q => simp [JSNum.isFinite] at hf
    | posInf => simp [resolveBaseText, hcond, hn, hv]
    | negInf => simp [resolveBaseText, hcond, hn, hv]
    | nan => simp [resolveBaseText, hcond, hn, hv]
  · simp [emphasisText, hh, hs]
  · simp [emphasisText, hh, hn]

/-- Witness for C7 at a visible label whose only content source is the
finite raw value `3/2`. -/
theorem c7_label_text_witness :
    resolveBaseText labelScopeEx = some (TextVal.num (roundDisp (3 / 2))) :=
  (c7_label_text labelScopeEx (Or.inl rfl)).2.1 rfl (3 / 2) rfl

/-- C8 counterexample: a record whose from-marker shape kind is the empty
string — present and different from `'none'` — still yields no marker,
because the source tests JavaScript falsiness (`!symbolType`), not
absence. -/
theorem c8_empty_kind_counterexample :
    itemEmptyKindEx.symbolKind SymbolCategory.fromSymbol ≠ none ∧
    itemEmptyKindEx.symbolKind SymbolCategory.fromSymbol ≠ some "none" ∧
    createSymbol SymbolCategory.fromSymbol itemEmptyKindEx = none := by
  refine ⟨by decide, by decide, by decide⟩

/-- C8 (amended): the factory returns no marker iff the record's shape
kind for the category is absent, the empty string, or `'none'`; otherwise
it returns a shape tagged with the category name, centered at the origin
(`x = -w/2`, `y = -h/2`), with a scalar size broadcast to both axes and a
pair size used as-is. -/
theorem c8_create_symbol (cat : SymbolCategory) (item : ItemVisual) :
    (createSymbol cat item = none ↔
      item.symbolKind cat = none ∨ item.symbolKind cat = some "" ∨
        item.symbolKind cat = some "none") ∧
    (∀ sp, createSymbol cat item = some sp →
      sp.name = cat ∧ sp.color = item.color ∧
      item.symbolKind cat = some sp.shapeKind ∧
      sp.x = -sp.w / 2 ∧ sp.y = -sp.h / 2 ∧
      (∀ u, item.sizeOf cat = SymbolSize.scalar u → sp.w = u ∧ sp.h = u) ∧
      (∀ w h, item.sizeOf cat = SymbolSize.pair w h → sp.w = w ∧ sp.h = h)) := by
  constructor
  · cases hk : item.symbolKind cat with
    | none => simp [createSymbol, hk]
    | some t =>
        by_cases ht : t = "" ∨ t = "none"
        · simp only [createSymbol, hk, if_pos ht]
          simp [ht]
        · simp only [createSymbol, hk, if_neg ht]
          simp
          tauto
  · intro sp hsp
    cases hk : item.symbolKind cat with
    | none => simp [createSymbol, hk] at hsp
    | some t =>
        by_cases ht : t = "" ∨ t = "none"
        · rw [createSymbol, hk] at hsp
          simp [if_pos ht] at hsp
        · rw [createSymbol, hk] at hsp
          simp only [if_neg ht, Option.some.injEq] at hsp
          subst hsp
          refine ⟨rfl, rfl, hk.symm ▸ rfl, rfl, rfl, fun u hu => ?_, fun w h hwh => ?_⟩
          · simp [broadcastSize, hu]
          · simp [broadcastSize, hwh]

/-- Witness for C8: the sentinel `'none'` yields no marker, and the
circle record builds the expected tagged shape. -/
theorem c8_create_symbol_witness :
    createSymbol SymbolCategory.toSymbol itemEmptyKindEx = none ∧
    spCircleEx.name = SymbolCategory.fromSymbol :=
  ⟨(c8_create_symbol SymbolCategory.toSymbol itemEmptyKindEx).1.mpr (Or.inr (Or.inr rfl)),
   ((c8_create_symbol SymbolCategory.fromSymbol itemCircleEx).2 spCircleEx
     (by
       simp only [createSymbol, itemCircleEx, ItemVisual.symbolKind, ItemVisual.sizeOf,
         broadcastSize]
       rw [if_neg (by decide)]
       norm_num [spCircleEx])).1⟩

/-- Witness for C9 at the point list `[(1,2), (3,4), (5,6)]`. -/
theorem c9_set_line_points_witness :
    (setLinePoints initialShape [(1, 2), (3, 4), (5, 6)]).cp = some (5, 6) ∧
    (setLinePoints initialShape [(1, 2), (3, 4), (5, 6)]).percent = 1 :=
  ⟨(c9_set_line_points initialShape [(1, 2), (3, 4), (5, 6)] (1, 2) (3, 4)
      rfl rfl).2.2.2.2.1,
   (c9_set_line_points initialShape [(1, 2), (3, 4), (5, 6)] (1, 2) (3, 4)
      rfl rfl).2.2.2.2.2.2.1⟩

end EChartsLine
